import Mathlib

/-!
Verification of the localdns DNS responder (src/app/main.go).

The Go program is shallowly embedded over `List Nat` byte buffers.
Go runtime panics (index out of range on slice indexing / slicing) are made
explicit: slice writes and reads return `Option` / a distinguished error so
that a panic is an observable outcome instead of undefined behaviour.
-/

namespace LocalDNS

set_option maxRecDepth 16384

/-- Errors a parse can end in.  The first four mirror the `errors.New`
messages in `parseDomainName` / `parseQuestion`.  `panicIndex` models a Go
runtime index-out-of-range panic (never produced by the real code, proved
below).  `fuelExhausted` models divergence of the `for {}` loop in
`parseDomainName`; the loop body is given an a-priori iteration budget and
this outcome marks the budget running out (also proved impossible). -/
inductive ParseError
  | offsetBeyondPacket
  | incompleteDomainName
  | incompleteLabel
  | questionTooShort
  | panicIndex
  | fuelExhausted
  deriving DecidableEq, Repr

/-- `packet[i]` for a Go byte slice: the value when `i` is in bounds,
a runtime panic otherwise. -/
def goIndexE : List Nat → Nat → Except ParseError Nat
  | [], _ => Except.error ParseError.panicIndex
  | b :: _, 0 => Except.ok b
  | _ :: t, i + 1 => goIndexE t i

/-- `uint16(packet[i])<<8 | uint16(packet[i+1])` from the Go source. -/
def readU16 (s : List Nat) (i : Nat) : Except ParseError Nat :=
  match goIndexE s i, goIndexE s (i + 1) with
  | Except.ok b0, Except.ok b1 => Except.ok (b0 <<< 8 ||| b1)
  | Except.error e, _ => Except.error e
  | _, Except.error e => Except.error e

/-- The `for {}` label-reading loop of `parseDomainName`, one equation per
unit of fuel.  Each iteration mirrors the Go body exactly: check
`pos >= len(packet)`, read the length byte, stop on a zero length, check
`pos+length > len(packet)`, append a dot and the label, advance.  The fuel
argument only bounds the number of iterations; `parseDomainName` passes
`packet.length + 1`, which is proved sufficient below. -/
def parseDomainNameLoop (packet : List Nat) :
    Nat → Nat → Nat → List Nat → Except ParseError (List Nat × Nat)
  | 0, pos, _, _ =>
      if pos ≥ packet.length then Except.error ParseError.incompleteDomainName
      else Except.error ParseError.fuelExhausted
  | fuel + 1, pos, bytesRead, domain =>
      if pos ≥ packet.length then Except.error ParseError.incompleteDomainName
      else
        match goIndexE packet pos with
        | Except.error e => Except.error e
        | Except.ok length =>
          if length = 0 then Except.ok (domain, bytesRead + 1)
          else if pos + 1 + length > packet.length then Except.error ParseError.incompleteLabel
          else
            parseDomainNameLoop packet fuel (pos + 1 + length) (bytesRead + 1 + length)
              ((if domain = [] then domain else domain ++ [46]) ++
                (packet.drop (pos + 1)).take length)

/-- `parseDomainName` from the Go source: reads a domain name starting at
`offset`, returning the accumulated dot-separated name bytes and the number
of bytes read. -/
def parseDomainName (packet : List Nat) (offset : Nat) :
    Except ParseError (List Nat × Nat) :=
  if offset ≥ packet.length then Except.error ParseError.offsetBeyondPacket
  else parseDomainNameLoop packet (packet.length + 1) offset 0 []

/-- `parseQuestion` from the Go source: a domain name followed by QTYPE and
QCLASS (2 bytes each), returning `(domain, qtype, qclass, bytesRead)`. -/
def parseQuestion (packet : List Nat) (offset : Nat) :
    Except ParseError (List Nat × Nat × Nat × Nat) :=
  match parseDomainName packet offset with
  | Except.error e => Except.error e
  | Except.ok (domain, nameBytes) =>
    if offset + nameBytes + 4 > packet.length then Except.error ParseError.questionTooShort
    else
      match readU16 packet (offset + nameBytes), readU16 packet (offset + nameBytes + 2) with
      | Except.ok qtype, Except.ok qclass =>
          Except.ok (domain, qtype, qclass, nameBytes + 4)
      | Except.error e, _ => Except.error e
      | _, Except.error e => Except.error e

/-- Go `s[i] = v`: `none` is the runtime panic when `i` is out of range. -/
def goSet : List Nat → Nat → Nat → Option (List Nat)
  | [], _, _ => none
  | _ :: t, 0, v => some (v :: t)
  | b :: t, i + 1, v => Option.map (fun u => b :: u) (goSet t i v)

/-- Go `s[i]` as a read: `none` is the runtime panic. -/
def goIndexO : List Nat → Nat → Option Nat
  | [], _ => none
  | b :: _, 0 => some b
  | _ :: t, i + 1 => goIndexO t i

/-- Bounds check of the Go slice expression `s[_:b]`: `b ≤ s.length`. -/
def goSliceOK : List Nat → Nat → Bool
  | _, 0 => true
  | [], _ + 1 => false
  | _ :: t, b + 1 => goSliceOK t b

/-- Overwrite elements of `s` starting at index `i` with `xs` (writes past
the end are dropped; callers guard the bounds like the Go code does). -/
def goWrite : List Nat → Nat → List Nat → List Nat
  | s, _, [] => s
  | [], _, _ => []
  | _ :: t, 0, x :: xs => x :: goWrite t 0 xs
  | b :: t, i + 1, xs => b :: goWrite t i xs

/-- Go `copy(s[a:b], src)`: the slice expression panics (`none`) unless
`a ≤ b` and `b ≤ len(s)`; `copy` then writes `min (b-a) src.length` bytes
of `src` at position `a`. -/
def goCopy (s : List Nat) (a b : Nat) (src : List Nat) : Option (List Nat) :=
  if a ≤ b ∧ goSliceOK s b = true then some (goWrite s a (List.take (b - a) src))
  else none

/-- The bytes of the string literal `"localdns"`. -/
def localdnsBytes : List Nat := [108, 111, 99, 97, 108, 100, 110, 115]

/-- The bytes of the string literal `"io"`. -/
def ioBytes : List Nat := [105, 111]

/-- `createResponse` from the Go source.  `make([]byte, len(query))`
followed by `copy(response, query)` copies the entire query (not just the
header), so the response starts as the query; each subsequent indexed write
or `copy` into a slice of `response` can panic (`none`) when the query is
too short. -/
def createResponse (query : List Nat) : Option (List Nat) := do
  let response := query
  -- response[2] = response[2] | 0b10000000
  let r2 ← goIndexO response 2
  let response ← goSet response 2 (r2 ||| 128)
  -- QDCOUNT := 1
  let response ← goSet response 4 0
  let response ← goSet response 5 1
  -- question section at offset 12: "localdns" label with length byte 0x0c
  let response ← goSet response 12 12
  let response ← goCopy response 13 25 localdnsBytes
  -- "io" label
  let response ← goSet response 25 2
  let response ← goCopy response 26 28 ioBytes
  -- terminating zero byte
  let response ← goSet response 28 0
  -- QTYPE = 1
  let response ← goSet response 29 0
  let response ← goSet response 30 1
  -- QCLASS = 1
  let response ← goSet response 31 0
  let response ← goSet response 32 1
  pure response

instance {α : Type} [DecidableEq α] : DecidableEq (Except ParseError α) := fun a b =>
  match a, b with
  | Except.ok x, Except.ok y =>
      if h : x = y then isTrue (by rw [h]) else isFalse (fun hc => h (Except.ok.inj hc))
  | Except.error e1, Except.error e2 =>
      if h : e1 = e2 then isTrue (by rw [h]) else isFalse (fun hc => h (Except.error.inj hc))
  | Except.ok _, Except.error _ => isFalse (fun hc => Except.noConfusion hc)
  | Except.error _, Except.ok _ => isFalse (fun hc => Except.noConfusion hc)

/-- DNS header observers over an encoded message, per the wire layout
(big-endian 16-bit fields; flag bits of byte 2: bit 7 QR, bits 3-6 Opcode,
bit 2 AA, bit 1 TC, bit 0 RD). -/
def hdrID (m : List Nat) : Nat := m.getD 0 0 * 256 + m.getD 1 0

/-- QR flag bit of an encoded message. -/
def hdrQR (m : List Nat) : Nat := m.getD 2 0 / 128 % 2

/-- Opcode field of an encoded message. -/
def hdrOpcode (m : List Nat) : Nat := m.getD 2 0 / 8 % 16

/-- AA flag bit of an encoded message. -/
def hdrAA (m : List Nat) : Nat := m.getD 2 0 / 4 % 2

/-- RD flag bit of an encoded message. -/
def hdrRD (m : List Nat) : Nat := m.getD 2 0 % 2

/-- RCODE field of an encoded message. -/
def hdrRCODE (m : List Nat) : Nat := m.getD 3 0 % 16

/-- QDCOUNT field of an encoded message. -/
def hdrQDCOUNT (m : List Nat) : Nat := m.getD 4 0 * 256 + m.getD 5 0

/-- ANCOUNT field of an encoded message. -/
def hdrANCOUNT (m : List Nat) : Nat := m.getD 6 0 * 256 + m.getD 7 0

/-- NSCOUNT field of an encoded message. -/
def hdrNSCOUNT (m : List Nat) : Nat := m.getD 8 0 * 256 + m.getD 9 0

/-- ARCOUNT field of an encoded message. -/
def hdrARCOUNT (m : List Nat) : Nat := m.getD 10 0 * 256 + m.getD 11 0

/-- The four errors the Go source can actually construct (its `errors.New`
values), as opposed to the runtime-panic and divergence markers. -/
def isRealError : ParseError → Bool
  | ParseError.offsetBeyondPacket => true
  | ParseError.incompleteDomainName => true
  | ParseError.incompleteLabel => true
  | ParseError.questionTooShort => true
  | ParseError.panicIndex => false
  | ParseError.fuelExhausted => false

/-- A parse outcome is safe when it is a success or one of the real
truncation errors: no out-of-bounds access, no divergence. -/
def safeOutcome {α : Type} : Except ParseError α → Bool
  | Except.ok _ => true
  | Except.error e => isRealError e

/-- A question-parse outcome that failed with a truncation-style error. -/
def failsTruncated {α : Type} : Except ParseError α → Bool
  | Except.error e => isRealError e
  | Except.ok _ => false

theorem goIndexE_spec (s : List Nat) : ∀ i : Nat,
    goIndexE s i =
      if i < s.length then Except.ok (s.getD i 0)
      else Except.error ParseError.panicIndex := by
  induction s with
  | nil =>
    intro i
    simp [goIndexE]
  | cons a t ih =>
    intro i
    cases i with
    | zero => simp [goIndexE]
    | succ i =>
      have hstep : goIndexE (a :: t) (i + 1) = goIndexE t i := rfl
      have hgd : (a :: t).getD (i + 1) 0 = t.getD i 0 := rfl
      rw [hstep, ih i, hgd]
      by_cases hi : i < t.length
      · rw [if_pos hi, if_pos (by simp only [List.length_cons]; omega)]
      · rw [if_neg hi, if_neg (by simp only [List.length_cons]; omega)]

theorem readU16_eq (s : List Nat) (i : Nat) (h : i + 1 < s.length) :
    readU16 s i = Except.ok (s.getD i 0 <<< 8 ||| s.getD (i + 1) 0) := by
  unfold readU16
  rw [goIndexE_spec, goIndexE_spec]
  rw [if_pos (by omega), if_pos h]

/-- The label loop never panics and never exhausts its fuel budget, as long
as the budget covers the remaining bytes: the read position strictly
increases on every iteration and every read is guarded by a bounds check. -/
theorem parseDomainNameLoop_safe (packet : List Nat) :
    ∀ (fuel pos bytesRead : Nat) (domain : List Nat),
      packet.length ≤ fuel + pos →
      safeOutcome (parseDomainNameLoop packet fuel pos bytesRead domain) = true := by
  intro fuel
  induction fuel with
  | zero =>
    intro pos bytesRead domain h
    unfold parseDomainNameLoop
    rw [if_pos (by omega)]
    rfl
  | succ fuel ih =>
    intro pos bytesRead domain h
    unfold parseDomainNameLoop
    split
    · rfl
    · rename_i hpos
      split
      · rename_i e hE
        exfalso
        revert hE
        rw [goIndexE_spec, if_pos (by omega)]
        intro hE
        exact Except.noConfusion hE
      · rename_i length hE
        split
        · rfl
        · split
          · rfl
          · rename_i hz hb
            exact ih _ _ _ (by omega)

/-- `parseDomainName` always returns a success or a real truncation error:
it never reads out of bounds and never diverges. -/
theorem parseDomainName_safe (packet : List Nat) (offset : Nat) :
    safeOutcome (parseDomainName packet offset) = true := by
  unfold parseDomainName
  split
  · rfl
  · exact parseDomainNameLoop_safe packet (packet.length + 1) offset 0 [] (by omega)

/-- `parseQuestion` always returns a success or a real truncation error:
it never reads out of bounds and never diverges. -/
theorem parseQuestion_safe (packet : List Nat) (offset : Nat) :
    safeOutcome (parseQuestion packet offset) = true := by
  unfold parseQuestion
  split
  · rename_i e hE
    have h := parseDomainName_safe packet offset
    rw [hE] at h
    exact h
  · rename_i domain nameBytes hE
    split
    · rfl
    · rename_i hlen
      rw [readU16_eq packet _ (by omega), readU16_eq packet _ (by omega)]
      rfl

theorem head_tail (q : List Nat) (h : 0 < q.length) : ∃ a t, q = a :: t := by
  cases q with
  | nil => simp at h
  | cons a t => exact ⟨a, t, rfl⟩

/-- A byte list of length at least 33 splits into 33 explicit head bytes
and a remainder; used to evaluate `createResponse` symbolically. -/
theorem exists33 (q : List Nat) (h : 33 ≤ q.length) :
    ∃ a0 a1 a2 a3 a4 a5 a6 a7 a8 a9 a10 a11 a12 a13 a14 a15 a16 a17 a18 a19 a20 a21 a22 a23 a24 a25 a26 a27 a28 a29 a30 a31 a32 rest,
      q = a0 :: a1 :: a2 :: a3 :: a4 :: a5 :: a6 :: a7 :: a8 :: a9 :: a10 :: a11 :: a12 :: a13 :: a14 :: a15 :: a16 :: a17 :: a18 :: a19 :: a20 :: a21 :: a22 :: a23 :: a24 :: a25 :: a26 :: a27 :: a28 :: a29 :: a30 :: a31 :: a32 :: rest := by
  obtain ⟨a0, q, rfl⟩ := head_tail q (by omega)
  obtain ⟨a1, q, rfl⟩ := head_tail q (by simp only [List.length_cons] at h; omega)
  obtain ⟨a2, q, rfl⟩ := head_tail q (by simp only [List.length_cons] at h; omega)
  obtain ⟨a3, q, rfl⟩ := head_tail q (by simp only [List.length_cons] at h; omega)
  obtain ⟨a4, q, rfl⟩ := head_tail q (by simp only [List.length_cons] at h; omega)
  obtain ⟨a5, q, rfl⟩ := head_tail q (by simp only [List.length_cons] at h; omega)
  obtain ⟨a6, q, rfl⟩ := head_tail q (by simp only [List.length_cons] at h; omega)
  obtain ⟨a7, q, rfl⟩ := head_tail q (by simp only [List.length_cons] at h; omega)
  obtain ⟨a8, q, rfl⟩ := head_tail q (by simp only [List.length_cons] at h; omega)
  obtain ⟨a9, q, rfl⟩ := head_tail q (by simp only [List.length_cons] at h; omega)
  obtain ⟨a10, q, rfl⟩ := head_tail q (by simp only [List.length_cons] at h; omega)
  obtain ⟨a11, q, rfl⟩ := head_tail q (by simp only [List.length_cons] at h; omega)
  obtain ⟨a12, q, rfl⟩ := head_tail q (by simp only [List.length_cons] at h; omega)
  obtain ⟨a13, q, rfl⟩ := head_tail q (by simp only [List.length_cons] at h; omega)
  obtain ⟨a14, q, rfl⟩ := head_tail q (by simp only [List.length_cons] at h; omega)
  obtain ⟨a15, q, rfl⟩ := head_tail q (by simp only [List.length_cons] at h; omega)
  obtain ⟨a16, q, rfl⟩ := head_tail q (by simp only [List.length_cons] at h; omega)
  obtain ⟨a17, q, rfl⟩ := head_tail q (by simp only [List.length_cons] at h; omega)
  obtain ⟨a18, q, rfl⟩ := head_tail q (by simp only [List.length_cons] at h; omega)
  obtain ⟨a19, q, rfl⟩ := head_tail q (by simp only [List.length_cons] at h; omega)
  obtain ⟨a20, q, rfl⟩ := head_tail q (by simp only [List.length_cons] at h; omega)
  obtain ⟨a21, q, rfl⟩ := head_tail q (by simp only [List.length_cons] at h; omega)
  obtain ⟨a22, q, rfl⟩ := head_tail q (by simp only [List.length_cons] at h; omega)
  obtain ⟨a23, q, rfl⟩ := head_tail q (by simp only [List.length_cons] at h; omega)
  obtain ⟨a24, q, rfl⟩ := head_tail q (by simp only [List.length_cons] at h; omega)
  obtain ⟨a25, q, rfl⟩ := head_tail q (by simp only [List.length_cons] at h; omega)
  obtain ⟨a26, q, rfl⟩ := head_tail q (by simp only [List.length_cons] at h; omega)
  obtain ⟨a27, q, rfl⟩ := head_tail q (by simp only [List.length_cons] at h; omega)
  obtain ⟨a28, q, rfl⟩ := head_tail q (by simp only [List.length_cons] at h; omega)
  obtain ⟨a29, q, rfl⟩ := head_tail q (by simp only [List.length_cons] at h; omega)
  obtain ⟨a30, q, rfl⟩ := head_tail q (by simp only [List.length_cons] at h; omega)
  obtain ⟨a31, q, rfl⟩ := head_tail q (by simp only [List.length_cons] at h; omega)
  obtain ⟨a32, q, rfl⟩ := head_tail q (by simp only [List.length_cons] at h; omega)
  exact ⟨a0, a1, a2, a3, a4, a5, a6, a7, a8, a9, a10, a11, a12, a13, a14, a15, a16, a17, a18, a19, a20, a21, a22, a23, a24, a25, a26, a27, a28, a29, a30, a31, a32, q, rfl⟩

set_option maxRecDepth 4096 in
/-- Effect of `| 0b10000000` on the flag bits of a byte: QR becomes 1 and
the Opcode, AA and RD fields are unchanged. -/
theorem lor128_bits : ∀ x, x < 256 →
    (x ||| 128) / 128 % 2 = 1 ∧ (x ||| 128) / 8 % 16 = x / 8 % 16 ∧
    (x ||| 128) / 4 % 2 = x / 4 % 2 ∧ (x ||| 128) % 2 = x % 2 := by decide

/-- Marks the loop-divergence outcome of a name parse. -/
def isFuelExhausted : Except ParseError (List Nat × Nat) → Bool
  | Except.error ParseError.fuelExhausted => true
  | _ => false

theorem parseDomainNameLoop_final (packet : List Nat) (fuel pos bytesRead : Nat)
    (domain : List Nat) (h1 : pos < packet.length) (h2 : packet.getD pos 0 = 0) :
    parseDomainNameLoop packet (fuel + 1) pos bytesRead domain =
      Except.ok (domain, bytesRead + 1) := by
  have hidx : goIndexE packet pos = Except.ok 0 := by
    rw [goIndexE_spec, if_pos h1, h2]
  simp only [parseDomainNameLoop, hidx]
  rw [if_neg (by omega), if_pos trivial]

theorem parseDomainNameLoop_step (packet : List Nat) (fuel pos bytesRead L : Nat)
    (domain : List Nat) (h1 : pos < packet.length) (h2 : packet.getD pos 0 = L)
    (h3 : L ≠ 0) (h4 : pos + 1 + L ≤ packet.length) :
    parseDomainNameLoop packet (fuel + 1) pos bytesRead domain =
      parseDomainNameLoop packet fuel (pos + 1 + L) (bytesRead + 1 + L)
        ((if domain = [] then domain else domain ++ [46]) ++
          (packet.drop (pos + 1)).take L) := by
  have hidx : goIndexE packet pos = Except.ok L := by
    rw [goIndexE_spec, if_pos h1, h2]
  simp only [parseDomainNameLoop, hidx]
  rw [if_neg (by omega), if_neg h3, if_neg (by omega)]

/-- A packet consisting of a single label of nonzero length `L` followed by
the zero terminator decodes to exactly that label, whatever its bytes. -/
theorem parseDomainName_single_label (L : Nat) (label : List Nat)
    (hL : label.length = L) (h0 : L ≠ 0) :
    parseDomainName (L :: label ++ [0]) 0 = Except.ok (label, L + 2) := by
  have hlen : (L :: label ++ [0]).length = L + 2 := by
    simp [hL]
  unfold parseDomainName
  rw [if_neg (by omega)]
  have hstep := parseDomainNameLoop_step (L :: label ++ [0]) ((L :: label ++ [0]).length)
      0 0 L [] (by omega) (by simp) h0 (by omega)
  rw [hstep]
  have hdom : ((if ([] : List Nat) = [] then ([] : List Nat) else [] ++ [46]) ++
      ((L :: label ++ [0]).drop (0 + 1)).take L) = label := by
    simp only [if_pos rfl, List.nil_append, List.drop_succ_cons, List.drop_zero]
    rw [← hL]
    exact List.take_left label [0]
  rw [hdom]
  rw [show (0 : Nat) + 1 + L = L + 1 from by omega]
  have hf : (L :: label ++ [0]).length = (L + 1) + 1 := by omega
  rw [hf]
  have h2 : (L :: label ++ [0]).getD (L + 1) 0 = 0 := by
    have hc : (L :: label ++ [0]).getD (L + 1) 0 = (label ++ [0]).getD L 0 := rfl
    rw [hc]
    rw [List.getD_append_right label [0] 0 L (by omega)]
    simp [hL]
  have hfin := parseDomainNameLoop_final (L :: label ++ [0]) (L + 1) (L + 1) (L + 1) label
      (by omega) h2
  rw [hfin]

/-- The 5-byte malformed packet of the spec example. -/
def malformedQuery : List Nat := [18, 52, 1, 0, 0]

/-- Encoded question `(name="codecrafters.io", qtype=1, qclass=1)`. -/
def cqBytes : List Nat :=
  [12, 99, 111, 100, 101, 99, 114, 97, 102, 116, 101, 114, 115, 2, 105, 111, 0, 0, 1, 0, 1]

/-- Query with ID=0x1234, RD=1, one codecrafters.io A/IN question. -/
def codecraftersQuery : List Nat :=
  [18, 52, 1, 0, 0, 1, 0, 0, 0, 0, 0, 0] ++ cqBytes

/-- The bytes `createResponse` returns for `codecraftersQuery`. -/
def codecraftersResponse : List Nat :=
  [18, 52, 129, 0, 0, 1, 0, 0, 0, 0, 0, 0,
   12, 108, 111, 99, 97, 108, 100, 110, 115, 116, 101, 114, 115, 2, 105, 111, 0, 0, 1, 0, 1]

/-- Dot-separated name bytes of "codecrafters.io". -/
def codecraftersDomain : List Nat :=
  [99, 111, 100, 101, 99, 114, 97, 102, 116, 101, 114, 115, 46, 105, 111]

/-- Dot-separated name bytes of "localdnsters.io": the hardcoded label
bytes plus the four stray query bytes, then ".io". -/
def localdnsTersDomain : List Nat :=
  [108, 111, 99, 97, 108, 100, 110, 115, 116, 101, 114, 115, 46, 105, 111]

/-- Same query but with the ANCOUNT field of the header set to 1. -/
def ancountOneQuery : List Nat :=
  [18, 52, 1, 0, 0, 1, 0, 1, 0, 0, 0, 0] ++ cqBytes

/-- The bytes `createResponse` returns for `ancountOneQuery`. -/
def ancountOneResponse : List Nat :=
  [18, 52, 129, 0, 0, 1, 0, 1, 0, 0, 0, 0,
   12, 108, 111, 99, 97, 108, 100, 110, 115, 116, 101, 114, 115, 2, 105, 111, 0, 0, 1, 0, 1]

/-- Same query but with the NSCOUNT field of the header set to 1. -/
def nscountQuery : List Nat :=
  [18, 52, 1, 0, 0, 1, 0, 0, 0, 1, 0, 0] ++ cqBytes

/-- The bytes `createResponse` returns for `nscountQuery`. -/
def nscountResponse : List Nat :=
  [18, 52, 129, 0, 0, 1, 0, 0, 0, 1, 0, 0,
   12, 108, 111, 99, 97, 108, 100, 110, 115, 116, 101, 114, 115, 2, 105, 111, 0, 0, 1, 0, 1]

/-- Query with one question `(name="abcdefghijkl.io", qtype=1, qclass=1)`. -/
def alphabetQuery : List Nat :=
  [0, 0, 0, 0, 0, 1, 0, 0, 0, 0, 0, 0,
   12, 97, 98, 99, 100, 101, 102, 103, 104, 105, 106, 107, 108, 2, 105, 111, 0, 0, 1, 0, 1]

/-- The bytes `createResponse` returns for `alphabetQuery`. -/
def alphabetResponse : List Nat :=
  [0, 0, 128, 0, 0, 1, 0, 0, 0, 0, 0, 0,
   12, 108, 111, 99, 97, 108, 100, 110, 115, 105, 106, 107, 108, 2, 105, 111, 0, 0, 1, 0, 1]

/-- Dot-separated name bytes of "abcdefghijkl.io". -/
def alphabetDomain : List Nat :=
  [97, 98, 99, 100, 101, 102, 103, 104, 105, 106, 107, 108, 46, 105, 111]

/-- Name the response question of `alphabetQuery` decodes to. -/
def localdnsIjklDomain : List Nat :=
  [108, 111, 99, 97, 108, 100, 110, 115, 105, 106, 107, 108, 46, 105, 111]

/-- A 33-byte all-zero query. -/
def zeroQuery : List Nat := List.replicate 33 0

/-- The bytes `createResponse` returns for `zeroQuery`. -/
def zeroResponse : List Nat :=
  [0, 0, 128, 0, 0, 1, 0, 0, 0, 0, 0, 0,
   12, 108, 111, 99, 97, 108, 100, 110, 115, 0, 0, 0, 0, 2, 105, 111, 0, 0, 1, 0, 1]

/-- Name the response question of `zeroQuery` decodes to: the length byte
0x0c takes four zero bytes of the query into the first label. -/
def localdnsZerosDomain : List Nat :=
  [108, 111, 99, 97, 108, 100, 110, 115, 0, 0, 0, 0, 46, 105, 111]

/-- Name the hardcoded question was intended to carry ("localdns.io"). -/
def localdnsIoDomain : List Nat :=
  [108, 111, 99, 97, 108, 100, 110, 115, 46, 105, 111]

/-- The loop never reports fuel exhaustion: its read position strictly
increases each iteration and is bounded by the packet length, so the
`packet.length + 1` iteration budget always suffices. -/
theorem parseDomainName_not_fuelExhausted (packet : List Nat) (offset : Nat) :
    isFuelExhausted (parseDomainName packet offset) = false := by
  have hs := parseDomainName_safe packet offset
  cases hp : parseDomainName packet offset with
  | ok v => rfl
  | error e =>
    rw [hp] at hs
    cases e
    case fuelExhausted => exact absurd hs (by decide)
    all_goals rfl

/-- Claim C1 (code evidence): `createResponse` does not build a FormatError
response for inputs shorter than the 12-byte header; on the 5-byte packet
(and on every input shorter than the 33 bytes its fixed writes need) it
performs an out-of-range slice write, i.e. a Go runtime panic (`none`) that
terminates the process instead of answering. -/
theorem createResponse_short_input_panics :
    createResponse malformedQuery = none ∧ createResponse [] = none ∧
    createResponse (List.replicate 11 0) = none ∧
    createResponse (List.replicate 32 0) = none := by decide

/-- Claim C2 counterexample: for the ID=0x1234, RD=1 query with one
codecrafters.io A/IN question, the response has ANCOUNT=0 (the claim says
1), is exactly 33 bytes long (so carries no answer record), and its
question section holds the hardcoded localdns bytes, not the echoed
question. -/
theorem c2_counterexample :
    createResponse codecraftersQuery = some codecraftersResponse ∧
    hdrANCOUNT codecraftersResponse = 0 ∧
    codecraftersResponse.length = 33 ∧
    parseQuestion codecraftersQuery 12 = Except.ok (codecraftersDomain, 1, 1, 21) ∧
    parseQuestion codecraftersResponse 12 = Except.ok (localdnsTersDomain, 1, 1, 21) ∧
    codecraftersDomain ≠ localdnsTersDomain := by decide

/-- Claim C2 (amended): for the ID=0x1234, RD=1 codecrafters.io query,
`createResponse` returns a 33-byte message with ID=0x1234, QR=1, QDCOUNT=1,
ANCOUNT copied from the query (0), no answer records, and the question
section replaced by the hardcoded localdns question (which decodes to
"localdnsters.io" because of the 0x0c length byte). -/
theorem createResponse_codecrafters_content :
    createResponse codecraftersQuery = some codecraftersResponse ∧
    hdrID codecraftersResponse = 4660 ∧ hdrQR codecraftersResponse = 1 ∧
    hdrRD codecraftersResponse = 1 ∧ hdrQDCOUNT codecraftersResponse = 1 ∧
    hdrANCOUNT codecraftersResponse = 0 ∧ codecraftersResponse.length = 33 ∧
    parseQuestion codecraftersResponse 12 = Except.ok (localdnsTersDomain, 1, 1, 21) := by
  decide

/-- Claim C3 counterexample: for a query whose ANCOUNT field is 1, the
response keeps ANCOUNT=1, yet the message is exactly 33 bytes and its one
question ends at byte 33, so zero answer records are encoded: ANCOUNT does
not equal the number of encoded answers. -/
theorem c3_counterexample :
    createResponse ancountOneQuery = some ancountOneResponse ∧
    hdrANCOUNT ancountOneResponse = 1 ∧
    ancountOneResponse.length = 33 ∧
    parseQuestion ancountOneResponse 12 = Except.ok (localdnsTersDomain, 1, 1, 21) := by
  decide

/-- Claim C3 (amended): for every 33-byte query, the response has QDCOUNT=1
and exactly one encoded question (ending at byte 33, so no answer records
are encoded), while ANCOUNT is copied unchanged from the query instead of
reflecting the (zero) encoded answers. -/
theorem createResponse_counts (q : List Nat) (h : q.length = 33) :
    ∃ r, createResponse q = some r ∧ hdrQDCOUNT r = 1 ∧ r.length = 33 ∧
      (∃ d, parseQuestion r 12 = Except.ok (d, 1, 1, 21)) ∧
      hdrANCOUNT r = hdrANCOUNT q := by
  obtain ⟨a0, a1, a2, a3, a4, a5, a6, a7, a8, a9, a10, a11, a12, a13, a14, a15, a16, a17, a18, a19, a20, a21, a22, a23, a24, a25, a26, a27, a28, a29, a30, a31, a32, rest, rfl⟩ :=
    exists33 q (by omega)
  have hrest : rest = [] := by
    simp only [List.length_cons] at h
    exact List.length_eq_zero.mp (by omega)
  subst hrest
  exact ⟨_, rfl, rfl, rfl, ⟨_, rfl⟩, rfl⟩

/-- Claim C3 witness: the amended count theorem at a concrete query. -/
theorem createResponse_counts_witness :
    ∃ r, createResponse (List.replicate 33 7) = some r ∧ hdrQDCOUNT r = 1 ∧ r.length = 33 ∧
      (∃ d, parseQuestion r 12 = Except.ok (d, 1, 1, 21)) ∧
      hdrANCOUNT r = hdrANCOUNT (List.replicate 33 7) :=
  createResponse_counts (List.replicate 33 7) (by decide)

/-- Claim C4 counterexample: the decoded question of `alphabetQuery`
("abcdefghijkl.io", 1, 1) does not appear in the response: the response's
only question decodes to "localdnsijkl.io". -/
theorem c4_counterexample :
    parseQuestion alphabetQuery 12 = Except.ok (alphabetDomain, 1, 1, 21) ∧
    createResponse alphabetQuery = some alphabetResponse ∧
    parseQuestion alphabetResponse 12 = Except.ok (localdnsIjklDomain, 1, 1, 21) ∧
    alphabetDomain ≠ localdnsIjklDomain := by decide

/-- Claim C4 (amended): for every 33-byte query, the question section of
the response is not the echoed query question: it is always the fixed bytes
0x0c "localdns" followed by the query's bytes 21-24, then 0x02 "io", the
zero terminator, QTYPE=1 and QCLASS=1. -/
theorem question_section_hardcoded (q : List Nat) (h : q.length = 33) :
    ∃ r, createResponse q = some r ∧
      r.drop 12 = [12, 108, 111, 99, 97, 108, 100, 110, 115,
        q.getD 21 0, q.getD 22 0, q.getD 23 0, q.getD 24 0, 2, 105, 111, 0, 0, 1, 0, 1] := by
  obtain ⟨a0, a1, a2, a3, a4, a5, a6, a7, a8, a9, a10, a11, a12, a13, a14, a15, a16, a17, a18, a19, a20, a21, a22, a23, a24, a25, a26, a27, a28, a29, a30, a31, a32, rest, rfl⟩ :=
    exists33 q (by omega)
  have hrest : rest = [] := by
    simp only [List.length_cons] at h
    exact List.length_eq_zero.mp (by omega)
  subst hrest
  exact ⟨_, rfl, rfl⟩

/-- Claim C4 witness: the hardcoded-question theorem at a concrete query. -/
theorem question_section_hardcoded_witness :
    ∃ r, createResponse (List.replicate 33 9) = some r ∧
      r.drop 12 = [12, 108, 111, 99, 97, 108, 100, 110, 115,
        (List.replicate 33 9).getD 21 0, (List.replicate 33 9).getD 22 0,
        (List.replicate 33 9).getD 23 0, (List.replicate 33 9).getD 24 0,
        2, 105, 111, 0, 0, 1, 0, 1] :=
  question_section_hardcoded (List.replicate 33 9) (by decide)

/-- Claim C5 counterexample: for a query with AA=0 and NSCOUNT=1, the
response also has AA=0 (the claim says AA=1) and NSCOUNT=1 (the claim says
NSCOUNT=0): `createResponse` neither sets AA nor zeroes NSCOUNT/ARCOUNT. -/
theorem c5_counterexample :
    createResponse nscountQuery = some nscountResponse ∧
    hdrAA nscountResponse = 0 ∧ hdrNSCOUNT nscountResponse = 1 := by decide

/-- Claim C5 (amended): for every query of at least 33 bytes (with a valid
flag byte), the response keeps the query's ID, sets QR=1, copies Opcode and
RD - but AA is copied from the query rather than set to 1, and NSCOUNT and
ARCOUNT are copied from the query rather than zeroed. -/
theorem createResponse_header_fields (q : List Nat) (h : 33 ≤ q.length)
    (hb : q.getD 2 0 < 256) :
    ∃ r, createResponse q = some r ∧ hdrID r = hdrID q ∧ hdrQR r = 1 ∧
      hdrOpcode r = hdrOpcode q ∧ hdrAA r = hdrAA q ∧ hdrRD r = hdrRD q ∧
      hdrNSCOUNT r = hdrNSCOUNT q ∧ hdrARCOUNT r = hdrARCOUNT q := by
  obtain ⟨a0, a1, a2, a3, a4, a5, a6, a7, a8, a9, a10, a11, a12, a13, a14, a15, a16, a17, a18, a19, a20, a21, a22, a23, a24, a25, a26, a27, a28, a29, a30, a31, a32, rest, rfl⟩ :=
    exists33 q h
  obtain ⟨h1, h2, h3, h4⟩ := lor128_bits a2 hb
  exact ⟨_, rfl, rfl, h1, h2, h3, h4, rfl, rfl⟩

/-- Claim C5 witness: the header-field theorem at a concrete query. -/
theorem createResponse_header_fields_witness :
    ∃ r, createResponse nscountQuery = some r ∧ hdrID r = hdrID nscountQuery ∧
      hdrQR r = 1 ∧ hdrOpcode r = hdrOpcode nscountQuery ∧
      hdrAA r = hdrAA nscountQuery ∧ hdrRD r = hdrRD nscountQuery ∧
      hdrNSCOUNT r = hdrNSCOUNT nscountQuery ∧ hdrARCOUNT r = hdrARCOUNT nscountQuery :=
  createResponse_header_fields nscountQuery (by decide) (by decide)

/-- Claim C6 counterexample: a message whose first label has length byte 64
decodes successfully to a 64-byte label; the decoder does not fail (there
is no LabelTooLong check in the code at all). -/
theorem c6_counterexample :
    parseDomainName ((64 : Nat) :: List.replicate 64 97 ++ [0]) 0 =
      Except.ok (List.replicate 64 97, 66) := by decide

/-- Claim C6 (amended): `parseDomainName` imposes no 63-byte label bound:
any message consisting of a length byte 64 followed by 64 label bytes and a
terminator decodes successfully to that 64-byte label. -/
theorem parseDomainName_no_label_bound (label : List Nat) (h : label.length = 64) :
    parseDomainName ((64 : Nat) :: label ++ [0]) 0 = Except.ok (label, 66) :=
  parseDomainName_single_label 64 label h (by decide)

/-- Claim C6 witness: the no-label-bound theorem at a concrete label. -/
theorem parseDomainName_no_label_bound_witness :
    parseDomainName ((64 : Nat) :: List.replicate 64 98 ++ [0]) 0 =
      Except.ok (List.replicate 64 98, 66) :=
  parseDomainName_no_label_bound (List.replicate 64 98) (by decide)

/-- Claim C7 counterexample: a first byte 0xC0 (top two bits 11) is not
treated as a compression pointer: with 192 content bytes following it the
decoder succeeds with a plain 192-byte label, instead of failing with
InvalidPointer as the claim requires for this self/forward reference. -/
theorem c7_counterexample :
    parseDomainName ((192 : Nat) :: List.replicate 192 97 ++ [0]) 0 =
      Except.ok (List.replicate 192 97, 194) := by decide

/-- Claim C7 (amended): `parseDomainName` has no compression-pointer
support: a byte with the top two bits set is consumed as an ordinary label
length (here 192), and the decoder still never loops - its loop budget is
never exhausted on any buffer and offset. -/
theorem parseDomainName_no_pointer_support :
    (∀ label : List Nat, label.length = 192 →
        parseDomainName ((192 : Nat) :: label ++ [0]) 0 = Except.ok (label, 194)) ∧
    ∀ (packet : List Nat) (offset : Nat),
        isFuelExhausted (parseDomainName packet offset) = false := by
  constructor
  · intro label h
    exact parseDomainName_single_label 192 label h (by decide)
  · intro packet offset
    exact parseDomainName_not_fuelExhausted packet offset

/-- Claim C7 witness: the no-pointer theorem at a concrete label. -/
theorem parseDomainName_no_pointer_support_witness :
    parseDomainName ((192 : Nat) :: List.replicate 192 98 ++ [0]) 0 =
      Except.ok (List.replicate 192 98, 194) :=
  parseDomainName_no_pointer_support.1 (List.replicate 192 98) (by decide)

/-- Claim C8: for every buffer and offset, `parseDomainName` and
`parseQuestion` either succeed or fail with one of the code's truncation
errors - never an out-of-bounds access, never divergence; and every strict
truncation of a well-formed 9-byte encoded question fails with such an
error. -/
theorem parse_safe_or_truncated :
    (∀ (packet : List Nat) (offset : Nat),
        safeOutcome (parseDomainName packet offset) = true ∧
        safeOutcome (parseQuestion packet offset) = true) ∧
    ∀ k : Nat, k < 9 →
        failsTruncated (parseQuestion (List.take k [3, 97, 98, 99, 0, 0, 1, 0, 1]) 0) = true := by
  refine ⟨fun packet offset =>
    ⟨parseDomainName_safe packet offset, parseQuestion_safe packet offset⟩, ?_⟩
  decide

/-- Claim C8 witness: the truncation clause at a concrete cut point. -/
theorem parse_safe_or_truncated_witness :
    failsTruncated (parseQuestion (List.take 5 [3, 97, 98, 99, 0, 0, 1, 0, 1]) 0) = true :=
  parse_safe_or_truncated.2 5 (by decide)

/-- Claim C9: `parseDomainName` terminates on every packet and offset: the
label loop's read position strictly increases and is bounded by the packet
length, so its iteration budget is never exhausted. -/
theorem parseDomainName_terminates (packet : List Nat) (offset : Nat) :
    isFuelExhausted (parseDomainName packet offset) = false :=
  parseDomainName_not_fuelExhausted packet offset

/-- Claim C10 (code evidence): on the 33-byte all-zero query, parsing the
response's question at offset 12 succeeds with qtype 1 and qclass 1, but the
name is "localdns\x00\x00\x00\x00.io", not "localdns.io": the 0x0c length
byte drags four stray query bytes into the first label. -/
theorem response_question_label_mismatch :
    createResponse zeroQuery = some zeroResponse ∧
    parseQuestion zeroResponse 12 = Except.ok (localdnsZerosDomain, 1, 1, 21) ∧
    localdnsZerosDomain ≠ localdnsIoDomain := by decide

end LocalDNS
